import Mathlib

/-!
Verification development for the mcp-google-workspace server (TypeScript).

The embedding translates the credential-lifecycle core of `src/server.ts`
(`OAuthServer`, `GoogleWorkspaceServer.setupOAuth2` / `startAuthFlow` and the
`CallToolRequestSchema` handler) and the tool-gating logic of
`src/tools/gmail.ts` (`GmailTools.getTools` / `handleTool`) into pure Lean
functions.  Side effects (HTTP responses, spawning a browser, binding the
callback port, network calls to the provider, disk writes) are recorded as
explicit events in a trace; fallible operations return `Except`.
-/

namespace MCPGW

/-- An entry of the accounts file (`.accounts.json`): email is the unique,
case-sensitive key. -/
structure Account where
  email : String
  accountType : String
  extraInfo : String
  deriving DecidableEq, Repr

/-- The token record google-auth-library style: `expiry_date` is a millisecond
timestamp; `refresh_token` may be absent. -/
structure TokenSet where
  access_token : String
  refresh_token : Option String
  expiry_date : Option Int
  scope : String
  deriving DecidableEq, Repr

/-- The in-memory shape returned by `gauth.getStoredCredentials`: a wrapper
holding the token record. -/
structure StoredCredentials where
  credentials : TokenSet
  deriving DecidableEq, Repr

/-- Observable side effects of the server code, in program order. -/
inductive Event where
  /-- An HTTP response written by `OAuthServer.handleRequest`
  (status code and optional body). -/
  | respond (status : Nat) (body : Option String)
  /-- `gauth.getCredentials(code, storage)`: the provider token-endpoint
  exchange of an authorization code. -/
  | exchangeCode (code : String)
  /-- `this.server.close()`: the listening socket is closed. -/
  | closeServer
  /-- `spawn('open', [authUrl])`: the authorization URL is opened in an
  external user agent. -/
  | spawnOpen (url : String)
  /-- `oauthServer.listen(port)`: a callback listener binds the port. -/
  | listen (port : Nat)
  /-- `logger.error("credentials expired, trying refresh")`: the log line
  emitted by the expiry check (its only effect). -/
  | logExpired
  /-- `gauth.getUserInfo(credentials)`: provider round trip validating /
  refreshing stored credentials. -/
  | getUserInfo
  /-- `gauth.storeCredentials(credentials, userId)`: the token record is
  persisted to disk. -/
  | storeCredentials (userId : String)
  /-- Dispatch into a Gmail/Calendar tool implementation
  (`this.tools.*.handleTool(name, args)`). -/
  | invokeTool (name : String)
  /-- Vocabulary for the spec's `AuthorizationDenied` resolution of a pending
  flow.  The source never emits it; it exists so its absence is statable. -/
  | resolveAuthorizationDenied
  deriving DecidableEq, Repr

/-- An event that contacts the remote provider over the network. -/
def Event.providerNetwork : Event → Bool
  | .exchangeCode _ => true
  | .getUserInfo => true
  | _ => false

/-- Query-string lookup: `parseQueryString` yields the value of the first
occurrence of a key. -/
def lookupParam (q : List (String × String)) (k : String) : Option String :=
  (q.find? fun p => p.1 = k).map Prod.snd

/-- JavaScript truthiness of a possibly-absent string value
(`undefined` and `''` are falsy). -/
def truthyStr : Option String → Bool
  | none => false
  | some s => s ≠ ""

/-- `OAuthServer.handleRequest` (src/server.ts lines 47-69): the callback
listener's routing, as the trace of responses and effects for one incoming
request, given its parsed pathname and query.  `exchange` is
`gauth.getCredentials(code, storage)` (src/services/gauth.ts, absent from
src/): an opaque, fallible provider token-endpoint call.  The 200 response
and body are written before the exchange is awaited; `this.server.close()`
runs only if the awaited exchange resolves — a rejected exchange aborts the
async handler before the close, leaving the socket open. -/
def handleRequest (exchange : String → Except String Unit)
    (pathname : String) (query : List (String × String)) :
    List Event :=
  if pathname ≠ "/code" then
    [.respond 404 none]
  else if truthyStr (lookupParam query "code") = false then
    [.respond 400 none]
  else
    match lookupParam query "code" with
    | none => [.respond 400 none]
    | some c =>
        match exchange c with
        | .ok _ =>
            [.respond 200 (some "Auth successful! You can close the tab!"),
             .exchangeCode c, .closeServer]
        | .error _ =>
            [.respond 200 (some "Auth successful! You can close the tab!"),
             .exchangeCode c]

/-- The listening socket is closed during this trace (after it, no further
requests are accepted). -/
def serverClosedAfter (evs : List Event) : Bool :=
  evs.contains .closeServer

/-- The trace resolves the pending flow with `AuthorizationDenied`. -/
def resolvesDenied (evs : List Event) : Bool :=
  evs.contains .resolveAuthorizationDenied

/-- JavaScript truthiness of a number (`0` is falsy). -/
def jsNumTruthy (n : Int) : Bool := n ≠ 0

/-- The expiry check of `GoogleWorkspaceServer.setupOAuth2` (src/server.ts
line 129): `tokens.expiry_date && tokens.expiry_date < Date.now()`. -/
def credentialsExpiredCheck (t : TokenSet) (now : Int) : Bool :=
  match t.expiry_date with
  | none => false
  | some e => jsNumTruthy e && decide (e < now)

/-- The spec's expiry predicate, stated from its words for comparison with
`credentialsExpiredCheck`: expired exactly when `now >= expiry - safetyMargin`. -/
def specIsExpired (now expiry margin : Int) : Bool :=
  decide (expiry - margin ≤ now)

/-- Modelled from the spec: `GAuthService.getAuthorizationUrl`
(src/services/gauth.ts, absent from src/).  Per §4.3, a deterministic
provider authorization URL bound to the target account, requesting an
offline-access code grant; the binding to `userId` is embedded in the URL. -/
def authorizationUrl (userId : String) : String :=
  "https://accounts.google.com/o/oauth2/auth?response_type=code&access_type=offline&login_hint="
    ++ userId

/-- The errors setupOAuth2 can surface to the tool-call handler. -/
inductive OAuthError where
  /-- `throw new Error("No accounts specified in .gauth.json")` on an empty
  accounts list. -/
  | noAccounts
  /-- `throw new Error("Account for email: ... not specified in .gauth.json")`
  when `userId` matches no loaded account. -/
  | accountNotConfigured (email : String)
  /-- An error thrown by a `GAuthService` operation (refresh / validation /
  storage) and caught by the handler's try/catch. -/
  | thrown (msg : String)
  /-- Vocabulary for the spec's `AuthFlowBusy` failure of a second concurrent
  interactive flow.  The source never produces it; it exists so its absence is
  statable. -/
  | authFlowBusy
  deriving DecidableEq, Repr

/-- The `.message` of the thrown `Error`, as interpolated by the handler. -/
def OAuthError.message : OAuthError → String
  | .noAccounts => "No accounts specified in .gauth.json"
  | .accountNotConfigured email =>
      "Account for email: " ++ email ++ " not specified in .gauth.json"
  | .thrown msg => msg
  | .authFlowBusy => "AuthFlowBusy"

/-- The fallible `GAuthService` operations invoked on the stored-credentials
path of `setupOAuth2`.  Their bodies live in src/services/gauth.ts (absent
from src/); the embedding keeps them opaque: each either completes or throws
with a message. -/
structure GAuthOps where
  getUserInfo : StoredCredentials → Except String Unit
  storeCredentials : StoredCredentials → String → Except String Unit

/-- `GoogleWorkspaceServer.startAuthFlow` (src/server.ts lines 107-113):
builds the authorization URL for `userId`, spawns `open` on it and binds a
fresh `OAuthServer` on port 4100 — then returns at once.  Nothing awaits the
callback, and no state records that a flow is pending. -/
def startAuthFlow (userId : String) : Except OAuthError Unit × List Event :=
  (.ok (), [.spawnOpen (authorizationUrl userId), .listen 4100])

/-- `GoogleWorkspaceServer.setupOAuth2` (src/server.ts lines 115-137), as the
thrown-or-ok outcome plus the trace of effects.  `stored` is
`gauth.getStoredCredentials` (the on-disk record per account), `now` is
`Date.now()`. -/
def setupOAuth2 (accounts : List Account)
    (stored : String → Option StoredCredentials) (ops : GAuthOps)
    (now : Int) (userId : String) : Except OAuthError Unit × List Event :=
  if accounts.isEmpty then
    (.error .noAccounts, [])
  else if ¬ accounts.any (fun a => a.email = userId) then
    (.error (.accountNotConfigured userId), [])
  else
    match stored userId with
    | none => startAuthFlow userId
    | some credentials =>
        let logEvs : List Event :=
          if credentialsExpiredCheck credentials.credentials now then
            [.logExpired]
          else []
        match ops.getUserInfo credentials with
        | .error msg => (.error (.thrown msg), logEvs ++ [.getUserInfo])
        | .ok _ =>
            match ops.storeCredentials credentials userId with
            | .error msg =>
                (.error (.thrown msg),
                 logEvs ++ [.getUserInfo, .storeCredentials userId])
            | .ok _ =>
                (.ok (), logEvs ++ [.getUserInfo, .storeCredentials userId])

/-- The structured error payload the handler serializes
(`JSON.stringify(\x7berror, success: false\x7d)`). -/
structure ErrorPayload where
  error : String
  success : Bool
  deriving DecidableEq, Repr

/-- The value returned to the MCP client for one tool call: either
`\x7bcontent\x7d` on success or `\x7bisError: true, content: [payload]\x7d`. -/
inductive CallResult where
  | ok (content : List String)
  | err (payload : ErrorPayload)
  deriving DecidableEq, Repr

/-- Tool-call arguments: the JSON dictionary, with string values (the only
shape the claims inspect). -/
abbrev Args := List (String × String)

/-- `args.key` lookup on the arguments dictionary. -/
def getArg (args : Args) (k : String) : Option String :=
  (args.find? fun p => p.1 = k).map Prod.snd

/-- A tool implementation as the handler sees it: it returns content or
throws with a message. -/
abbrev ToolImpl := String → Args → Except String (List String)

/-- One character list is a prefix of another. -/
def charsPrefix : List Char → List Char → Bool
  | [], _ => true
  | _ :: _, [] => false
  | a :: as, b :: bs => a = b && charsPrefix as bs

/-- `name.startsWith(prefix)` on the underlying character sequences. -/
def strStartsWith (s pre : String) : Bool :=
  charsPrefix pre.data s.data

/-- The routing step of the handler: `gmail_*` to GmailTools, `calendar_*`
to CalendarTools, otherwise `throw new Error("Unknown tool: ...")`. -/
def routeTool (gmailTool calendarTool : ToolImpl) (name : String)
    (args : Args) : Except String (List String) :=
  if strStartsWith name "gmail_" then gmailTool name args
  else if strStartsWith name "calendar_" then calendarTool name args
  else .error ("Unknown tool: " ++ name)

/-- The `CallToolRequestSchema` handler of `setupHandlers` (src/server.ts
lines 151-247), for one request: the result sent back plus the trace of
effects while settling the call.  Arguments are an object (the non-object
branch is upstream of everything the claims touch). -/
def callTool (accounts : List Account)
    (stored : String → Option StoredCredentials) (ops : GAuthOps) (now : Int)
    (gmailTool calendarTool : ToolImpl) (name : String) (args : Args) :
    CallResult × List Event :=
  if name = "gmail_list_accounts" ∨ name = "calendar_list_accounts" then
    match routeTool gmailTool calendarTool name args with
    | .ok content => (.ok content, [.invokeTool name])
    | .error msg =>
        (.err ⟨"Tool execution failed: " ++ msg, false⟩, [.invokeTool name])
  else
    match getArg args "user_id" with
    | none => (.err ⟨"user_id argument is missing in dictionary", false⟩, [])
    | some uid =>
        if uid = "" then
          (.err ⟨"user_id argument is missing in dictionary", false⟩, [])
        else
          match setupOAuth2 accounts stored ops now uid with
          | (.error e, evs) =>
              (.err ⟨"OAuth2 setup failed: " ++ e.message, false⟩, evs)
          | (.ok _, evs) =>
              match routeTool gmailTool calendarTool name args with
              | .ok content => (.ok content, evs ++ [.invokeTool name])
              | .error msg =>
                  (.err ⟨"Tool execution failed: " ++ msg, false⟩,
                   evs ++ [.invokeTool name])

/-- The server loop over a stream of tool-call requests: each is settled by
`callTool`; no per-call failure stops the processing of later requests. -/
def serveAll (accounts : List Account)
    (stored : String → Option StoredCredentials) (ops : GAuthOps) (now : Int)
    (gmailTool calendarTool : ToolImpl) (reqs : List (String × Args)) :
    List CallResult :=
  reqs.map fun r =>
    (callTool accounts stored ops now gmailTool calendarTool r.1 r.2).1

/-- The names of the tool definitions in `GmailTools.getTools`
(src/tools/gmail.ts), in the order of the array literal, before the
sending-tools filter is applied. -/
def gmailToolList : List String :=
  ["gmail_list_accounts", "gmail_query_emails", "gmail_get_email",
   "gmail_bulk_get_emails", "gmail_create_draft", "gmail_send_email",
   "gmail_delete_draft", "gmail_reply", "gmail_forward",
   "gmail_get_attachment", "gmail_bulk_save_attachments", "gmail_archive",
   "gmail_bulk_archive"]

/-- The names of the four sending tools gated by `GMAIL_ALLOW_SENDING`. -/
def gmailSendingTools : List String :=
  ["gmail_reply", "gmail_create_draft", "gmail_forward", "gmail_send_email"]

/-- The filter of `GmailTools.getTools` (src/tools/gmail.ts lines 443-446):
`(process.env.GMAIL_ALLOW_SENDING === 'true') ? true : (name !== each
sending tool)`, applied to the advertised names.  `env` is the environment
variable's value, `none` when unset. -/
def gmailGetTools (env : Option String) : List String :=
  gmailToolList.filter fun tool =>
    if env = some "true" then true
    else
      tool ≠ "gmail_reply" ∧ tool ≠ "gmail_create_draft" ∧
      tool ≠ "gmail_forward" ∧ tool ≠ "gmail_send_email"

/-- The private implementation methods of `GmailTools` that `handleTool`
dispatches to. -/
inductive GmailImpl where
  | listAccounts | queryEmails | getEmailById | bulkGetEmails | createDraft
  | sendEmail | deleteDraft | reply | forward | getAttachment
  | bulkSaveAttachments | archive | bulkArchive
  deriving DecidableEq, Repr

/-- `GmailTools.handleTool` (src/tools/gmail.ts lines 449-481): the switch on
the tool name, selecting the implementation the arguments are forwarded to,
or throwing `Unknown tool`.  The dispatch never consults `args` or the
environment. -/
def gmailHandleTool (name : String) (_args : Args) : Except String GmailImpl :=
  if name = "gmail_list_accounts" then .ok .listAccounts
  else if name = "gmail_query_emails" then .ok .queryEmails
  else if name = "gmail_get_email" then .ok .getEmailById
  else if name = "gmail_bulk_get_emails" then .ok .bulkGetEmails
  else if name = "gmail_create_draft" then .ok .createDraft
  else if name = "gmail_send_email" then .ok .sendEmail
  else if name = "gmail_delete_draft" then .ok .deleteDraft
  else if name = "gmail_reply" then .ok .reply
  else if name = "gmail_forward" then .ok .forward
  else if name = "gmail_get_attachment" then .ok .getAttachment
  else if name = "gmail_bulk_save_attachments" then .ok .bulkSaveAttachments
  else if name = "gmail_archive" then .ok .archive
  else if name = "gmail_bulk_archive" then .ok .bulkArchive
  else .error ("Unknown tool: " ++ name)

/-- The shape of a provider refresh response: a new access token, optionally
a new refresh token, a new expiry and scope. -/
structure RefreshResponse where
  access_token : String
  refresh_token : Option String
  expiry_date : Option Int
  scope : String
  deriving DecidableEq, Repr

/-- Modelled from the spec: `OAuthClient.refresh` in src/services/gauth.ts is
absent from src/.  Per §4.3, the refresh merges the provider's response into
the stored TokenSet, and when the response omits a refresh token the previous
one is preserved. -/
def refreshTokenSet (old : TokenSet) (resp : RefreshResponse) : TokenSet :=
  { access_token := resp.access_token
    refresh_token :=
      match resp.refresh_token with
      | some r => some r
      | none => old.refresh_token
    expiry_date := resp.expiry_date
    scope := resp.scope }

/-- Modelled from the spec: the `CredentialStore` write in
src/services/gauth.ts is absent from src/.  Per §4.2, one record per account
email, newest write wins. -/
def storeWrite (store : List (String × TokenSet)) (email : String)
    (t : TokenSet) : List (String × TokenSet) :=
  (email, t) :: store.filter fun p => p.1 ≠ email

/-- Modelled from the spec: the `CredentialStore` read in
src/services/gauth.ts is absent from src/.  Per §4.2, returns the record for
the email or "not found". -/
def storeRead (store : List (String × TokenSet)) (email : String) :
    Option TokenSet :=
  (store.find? fun p => p.1 = email).map Prod.snd

/-- The trace event is a provider code exchange. -/
def Event.isExchange : Event → Bool
  | .exchangeCode _ => true
  | _ => false

/-- The trace event persists a token record. -/
def Event.isStore : Event → Bool
  | .storeCredentials _ => true
  | _ => false

/-- A `GAuthService` whose operations all succeed, for concrete scenarios. -/
def trivialOps : GAuthOps :=
  { getUserInfo := fun _ => .ok ()
    storeCredentials := fun _ _ => .ok () }

/-- A tool implementation that returns fixed content, for concrete
scenarios. -/
def stubTool : ToolImpl := fun _ _ => .ok ["stub"]

/-- A code exchange that resolves, for concrete scenarios. -/
def exchangeResolves : String → Except String Unit := fun _ => .ok ()

/-- A code exchange that rejects (e.g. an expired or reused code), for
concrete scenarios. -/
def exchangeRejects : String → Except String Unit :=
  fun _ => .error "invalid_grant"

/-!  ## Theorems  -/

/-- C2 counterexample: a TokenSet whose `expiry_date` is 30 units in the
future is counted as expired by the spec's margin predicate but is NOT
treated as expired by the code's check (`expiry_date && expiry_date <
Date.now()`), which applies no safety margin. -/
theorem C2_counterexample :
    specIsExpired 1000 1030 60 = true ∧
    credentialsExpiredCheck
      { access_token := "A", refresh_token := some "R",
        expiry_date := some 1030, scope := "" } 1000 = false := by
  decide

/-- C2 (amended): the code's expiry check holds exactly when `expiry_date`
is present, nonzero and strictly less than `now` — no safety margin — so a
TokenSet expiring 30 or 120 units in the future is in neither case treated
as expired. -/
theorem C2_amended_no_safety_margin (t : TokenSet) (now : Int) :
    (credentialsExpiredCheck t now = true ↔
      ∃ e, t.expiry_date = some e ∧ e ≠ 0 ∧ e < now) ∧
    credentialsExpiredCheck { t with expiry_date := some (now + 30) } now
      = false ∧
    credentialsExpiredCheck { t with expiry_date := some (now + 120) } now
      = false := by
  refine ⟨?_, ?_, ?_⟩
  · cases h : t.expiry_date with
    | none => simp [credentialsExpiredCheck, h]
    | some e => simp [credentialsExpiredCheck, h, jsNumTruthy]
  · simp only [credentialsExpiredCheck, jsNumTruthy]
    simp only [Bool.and_eq_false_iff, decide_eq_false_iff_not]
    right
    omega
  · simp only [credentialsExpiredCheck, jsNumTruthy]
    simp only [Bool.and_eq_false_iff, decide_eq_false_iff_not]
    right
    omega

/-- C4 counterexample: a GET to `/code?code=ABC` whose code exchange
rejects is answered 200 with the static body, yet the listening socket is
NOT closed — `this.server.close()` runs only after the awaited exchange
resolves, so the claim's unconditional close fails here. -/
theorem C4_counterexample :
    handleRequest exchangeRejects "/code" [("code", "ABC")] =
      [.respond 200 (some "Auth successful! You can close the tab!"),
       .exchangeCode "ABC"] ∧
    serverClosedAfter
      (handleRequest exchangeRejects "/code" [("code", "ABC")]) =
      false := by
  decide

/-- C4 (amended): a request to any path other than `/code` is answered 404
and the listener keeps listening; a GET to `/code` with a code parameter is
answered 200 with the static confirmation body and the code is exchanged,
and the listening socket is closed only when the exchange resolves — a
rejected exchange skips the close and the socket stays open. -/
theorem C4_amended_close_only_on_resolved_exchange
    (exchange : String → Except String Unit) (pathname : String)
    (q : List (String × String)) :
    (pathname ≠ "/code" →
      handleRequest exchange pathname q = [.respond 404 none] ∧
      serverClosedAfter (handleRequest exchange pathname q) = false) ∧
    (∀ c : String, pathname = "/code" → lookupParam q "code" = some c →
      c ≠ "" →
      (exchange c = .ok () →
        handleRequest exchange pathname q =
          [.respond 200 (some "Auth successful! You can close the tab!"),
           .exchangeCode c, .closeServer] ∧
        serverClosedAfter (handleRequest exchange pathname q) = true) ∧
      (∀ msg : String, exchange c = .error msg →
        handleRequest exchange pathname q =
          [.respond 200 (some "Auth successful! You can close the tab!"),
           .exchangeCode c] ∧
        serverClosedAfter (handleRequest exchange pathname q) = false)) := by
  constructor
  · intro h
    simp [handleRequest, h, serverClosedAfter]
  · intro c hp hc hne
    subst hp
    constructor
    · intro hex
      simp [handleRequest, hc, truthyStr, hne, hex, serverClosedAfter]
    · intro msg hex
      simp [handleRequest, hc, truthyStr, hne, hex, serverClosedAfter]

/-- C4 witness at concrete requests: `/other` gets 404 without closing;
`/code?code=ABC` with a resolving exchange gets the 200 trace ending in the
socket close; the same request with a rejecting exchange gets 200 but no
close. -/
theorem C4_amended_close_only_on_resolved_exchange_witness :
    (handleRequest exchangeResolves "/other" [] = [.respond 404 none] ∧
      serverClosedAfter (handleRequest exchangeResolves "/other" []) =
        false) ∧
    (handleRequest exchangeResolves "/code" [("code", "ABC")] =
      [.respond 200 (some "Auth successful! You can close the tab!"),
       .exchangeCode "ABC", .closeServer] ∧
      serverClosedAfter
        (handleRequest exchangeResolves "/code" [("code", "ABC")]) =
        true) ∧
    (handleRequest exchangeRejects "/code" [("code", "ABC")] =
      [.respond 200 (some "Auth successful! You can close the tab!"),
       .exchangeCode "ABC"] ∧
      serverClosedAfter
        (handleRequest exchangeRejects "/code" [("code", "ABC")]) =
        false) :=
  ⟨(C4_amended_close_only_on_resolved_exchange exchangeResolves "/other"
      []).1 (by decide),
   ((C4_amended_close_only_on_resolved_exchange exchangeResolves "/code"
      [("code", "ABC")]).2 "ABC" rfl (by decide) (by decide)).1 rfl,
   ((C4_amended_close_only_on_resolved_exchange exchangeRejects "/code"
      [("code", "ABC")]).2 "ABC" rfl (by decide) (by decide)).2
      "invalid_grant" rfl⟩

/-- C5 counterexample: a `/code` request carrying a provider error parameter
and no code gets a bare 400 — the pending flow is NOT resolved with
`AuthorizationDenied` (no such classification exists in the code). -/
theorem C5_counterexample :
    handleRequest exchangeResolves "/code" [("error", "access_denied")] =
      [.respond 400 none] ∧
    resolvesDenied
      (handleRequest exchangeResolves "/code"
        [("error", "access_denied")]) = false := by
  decide

/-- C5 (amended): whatever the exchange's behaviour, a `/code` request
without a (truthy) code parameter — including one carrying a provider error
parameter — is answered 400 and the listener keeps listening; the pending
flow is never resolved with `AuthorizationDenied`. -/
theorem C5_amended_error_param_gets_400
    (exchange : String → Except String Unit) (q : List (String × String))
    (h : truthyStr (lookupParam q "code") = false) :
    handleRequest exchange "/code" q = [.respond 400 none] ∧
    serverClosedAfter (handleRequest exchange "/code" q) = false ∧
    resolvesDenied (handleRequest exchange "/code" q) = false := by
  simp [handleRequest, h, serverClosedAfter, resolvesDenied]

/-- C5 witness: the amended statement at the concrete request
`/code?error=access_denied`. -/
theorem C5_amended_error_param_gets_400_witness :
    handleRequest exchangeResolves "/code" [("error", "access_denied")] =
      [.respond 400 none] ∧
    serverClosedAfter
      (handleRequest exchangeResolves "/code"
        [("error", "access_denied")]) = false ∧
    resolvesDenied
      (handleRequest exchangeResolves "/code"
        [("error", "access_denied")]) = false :=
  C5_amended_error_param_gets_400 exchangeResolves
    [("error", "access_denied")] (by decide)

/-- C8: when the stored TokenSet holds refresh token `R` and the provider's
refresh response omits a refresh token, the refreshed TokenSet still holds
`R`, and the record persisted for the account reads back with `R`. -/
theorem C8_refresh_preserves_refresh_token (old : TokenSet)
    (resp : RefreshResponse) (R : String)
    (store : List (String × TokenSet)) (email : String)
    (hold : old.refresh_token = some R)
    (hresp : resp.refresh_token = none) :
    (refreshTokenSet old resp).refresh_token = some R ∧
    storeRead (storeWrite store email (refreshTokenSet old resp)) email =
      some (refreshTokenSet old resp) := by
  constructor
  · simp [refreshTokenSet, hresp, hold]
  · simp [storeRead, storeWrite]

/-- C8 witness: a concrete refresh whose response omits the refresh token
preserves `"R"` through refresh and store round trip. -/
theorem C8_refresh_preserves_refresh_token_witness :
    (refreshTokenSet
      { access_token := "a", refresh_token := some "R",
        expiry_date := some 5, scope := "s" }
      { access_token := "b", refresh_token := none,
        expiry_date := some 9, scope := "s" }).refresh_token = some "R" ∧
    storeRead
      (storeWrite [] "a@x.com"
        (refreshTokenSet
          { access_token := "a", refresh_token := some "R",
            expiry_date := some 5, scope := "s" }
          { access_token := "b", refresh_token := none,
            expiry_date := some 9, scope := "s" })) "a@x.com" =
      some (refreshTokenSet
        { access_token := "a", refresh_token := some "R",
          expiry_date := some 5, scope := "s" }
        { access_token := "b", refresh_token := none,
          expiry_date := some 9, scope := "s" }) :=
  C8_refresh_preserves_refresh_token _ _ "R" [] "a@x.com" rfl rfl

/-- C9: a tool call other than the two `list_accounts` tools whose arguments
lack a `user_id` key returns the structured error naming the missing
`user_id`, with an empty effect trace — no tool implementation is invoked
and no OAuth setup is attempted. -/
theorem C9_missing_user_id_rejected (accounts : List Account)
    (stored : String → Option StoredCredentials) (ops : GAuthOps)
    (now : Int) (gmailTool calendarTool : ToolImpl) (name : String)
    (args : Args)
    (h1 : name ≠ "gmail_list_accounts")
    (h2 : name ≠ "calendar_list_accounts")
    (h3 : getArg args "user_id" = none) :
    callTool accounts stored ops now gmailTool calendarTool name args =
      (.err ⟨"user_id argument is missing in dictionary", false⟩, []) := by
  simp [callTool, h1, h2, h3]

/-- C9 witness: a concrete `gmail_query_emails` call with empty arguments
is rejected with the `user_id` error and an empty trace. -/
theorem C9_missing_user_id_rejected_witness :
    callTool [] (fun _ => none) trivialOps 0 stubTool stubTool
      "gmail_query_emails" [] =
      (.err ⟨"user_id argument is missing in dictionary", false⟩, []) :=
  C9_missing_user_id_rejected [] (fun _ => none) trivialOps 0 stubTool
    stubTool "gmail_query_emails" [] (by decide) (by decide) rfl

/-- C10: with `GMAIL_ALLOW_SENDING` not equal to `"true"`, the four sending
tools are absent from the advertised Gmail tool list, yet `handleTool` still
dispatches each of their names to its implementation, whatever the
arguments. -/
theorem C10_sending_tools_hidden_but_dispatched (env : Option String)
    (args : Args) (h : env ≠ some "true") :
    "gmail_reply" ∉ gmailGetTools env ∧
    "gmail_create_draft" ∉ gmailGetTools env ∧
    "gmail_forward" ∉ gmailGetTools env ∧
    "gmail_send_email" ∉ gmailGetTools env ∧
    gmailHandleTool "gmail_reply" args = .ok .reply ∧
    gmailHandleTool "gmail_create_draft" args = .ok .createDraft ∧
    gmailHandleTool "gmail_forward" args = .ok .forward ∧
    gmailHandleTool "gmail_send_email" args = .ok .sendEmail := by
  have hlist : gmailGetTools env =
      ["gmail_list_accounts", "gmail_query_emails", "gmail_get_email",
       "gmail_bulk_get_emails", "gmail_delete_draft",
       "gmail_get_attachment", "gmail_bulk_save_attachments",
       "gmail_archive", "gmail_bulk_archive"] := by
    simp [gmailGetTools, gmailToolList, h]
  rw [hlist]
  refine ⟨by decide, by decide, by decide, by decide, rfl, rfl, rfl, rfl⟩

/-- C10 witness: with the variable unset and empty arguments, the sending
tools are hidden from the list yet `gmail_reply` still dispatches. -/
theorem C10_sending_tools_hidden_but_dispatched_witness :
    "gmail_reply" ∉ gmailGetTools none ∧
    gmailHandleTool "gmail_reply" [] = .ok .reply ∧
    gmailHandleTool "gmail_send_email" [] = .ok .sendEmail :=
  ⟨(C10_sending_tools_hidden_but_dispatched none [] (by decide)).1,
   (C10_sending_tools_hidden_but_dispatched none [] (by decide)).2.2.2.2.1,
   (C10_sending_tools_hidden_but_dispatched none []
     (by decide)).2.2.2.2.2.2.2⟩

/-- C1 counterexample: for `a@x.com` with no stored record, the tool call
COMPLETES (here successfully, with the tool invoked) although its trace holds
no code exchange and no TokenSet persistence — only the URL spawn and the
listener bind.  The call does not block on the interactive flow's outcome. -/
theorem C1_counterexample :
    (callTool [⟨"a@x.com", "personal", ""⟩] (fun _ => none) trivialOps 0
      stubTool stubTool "gmail_query_emails" [("user_id", "a@x.com")]).1 =
      .ok ["stub"] ∧
    (callTool [⟨"a@x.com", "personal", ""⟩] (fun _ => none) trivialOps 0
      stubTool stubTool "gmail_query_emails" [("user_id", "a@x.com")]).2 =
      [.spawnOpen (authorizationUrl "a@x.com"), .listen 4100,
       .invokeTool "gmail_query_emails"] ∧
    ((callTool [⟨"a@x.com", "personal", ""⟩] (fun _ => none) trivialOps 0
      stubTool stubTool "gmail_query_emails"
      [("user_id", "a@x.com")]).2.all
        fun e => !e.isExchange && !e.isStore) = true := by
  decide

/-- C1 (amended): for an account with no stored record, a protected tool
call builds the authorization URL bound to that account, opens it and binds
the callback listener, but does not block on the flow's outcome: the call
completes at once, its trace free of any code exchange or TokenSet
persistence (those happen asynchronously in the listener when the redirect
arrives). -/
theorem C1_amended_flow_started_not_awaited (accounts : List Account)
    (stored : String → Option StoredCredentials) (ops : GAuthOps)
    (now : Int) (gmailTool calendarTool : ToolImpl) (name : String)
    (args : Args) (uid : String)
    (h1 : name ≠ "gmail_list_accounts")
    (h2 : name ≠ "calendar_list_accounts")
    (harg : getArg args "user_id" = some uid) (hne : uid ≠ "")
    (hacct : accounts.any (fun a => a.email = uid) = true)
    (hstored : stored uid = none) :
    (callTool accounts stored ops now gmailTool calendarTool name args).2 =
      [.spawnOpen (authorizationUrl uid), .listen 4100, .invokeTool name] ∧
    ((callTool accounts stored ops now gmailTool calendarTool name
        args).2.all fun e => !e.isExchange && !e.isStore) = true := by
  have hempty : accounts.isEmpty = false := by
    cases accounts with
    | nil => simp at hacct
    | cons a as => rfl
  have htr :
      (callTool accounts stored ops now gmailTool calendarTool name
        args).2 =
      [.spawnOpen (authorizationUrl uid), .listen 4100,
       .invokeTool name] := by
    simp only [callTool, h1, h2, harg]
    rw [if_neg (by simp [h1, h2])]
    rw [if_neg hne]
    simp only [setupOAuth2, hempty, hacct, hstored, startAuthFlow]
    simp only [Bool.not_eq_true, not_false_eq_true, if_neg, if_true]
    cases routeTool gmailTool calendarTool name args <;> rfl
  refine ⟨htr, ?_⟩
  rw [htr]
  rfl

/-- C1 witness: the amended statement at the concrete no-record scenario for
`a@x.com` calling `gmail_get_email`. -/
theorem C1_amended_flow_started_not_awaited_witness :
    (callTool [⟨"a@x.com", "personal", ""⟩] (fun _ => none) trivialOps 0
      stubTool stubTool "gmail_get_email" [("user_id", "a@x.com")]).2 =
      [.spawnOpen (authorizationUrl "a@x.com"), .listen 4100,
       .invokeTool "gmail_get_email"] ∧
    ((callTool [⟨"a@x.com", "personal", ""⟩] (fun _ => none) trivialOps 0
      stubTool stubTool "gmail_get_email"
      [("user_id", "a@x.com")]).2.all
        fun e => !e.isExchange && !e.isStore) = true :=
  C1_amended_flow_started_not_awaited [⟨"a@x.com", "personal", ""⟩]
    (fun _ => none) trivialOps 0 stubTool stubTool "gmail_get_email"
    [("user_id", "a@x.com")] "a@x.com" (by decide) (by decide) rfl
    (by decide) (by decide) rfl

/-- C3 counterexample: with an EMPTY accounts list, a call for `a@x.com`
(which matches no loaded account) fails with the distinct no-accounts
configuration error, not with the account-not-configured error the claim
names — though still without contacting the provider. -/
theorem C3_counterexample :
    callTool [] (fun _ => none) trivialOps 0 stubTool stubTool
      "gmail_query_emails" [("user_id", "a@x.com")] =
      (.err ⟨"OAuth2 setup failed: No accounts specified in .gauth.json",
        false⟩, []) ∧
    OAuthError.noAccounts.message ≠
      (OAuthError.accountNotConfigured "a@x.com").message := by
  decide

/-- C3 (amended): a `user_id` matching no loaded account is rejected with
the account-not-configured error when at least one account is loaded, and
with the distinct no-accounts error when the accounts list is empty; in both
cases the effect trace is empty, so no provider network request is made
while settling the call. -/
theorem C3_amended_unknown_account_rejected (accounts : List Account)
    (stored : String → Option StoredCredentials) (ops : GAuthOps)
    (now : Int) (gmailTool calendarTool : ToolImpl) (name : String)
    (args : Args) (uid : String)
    (h1 : name ≠ "gmail_list_accounts")
    (h2 : name ≠ "calendar_list_accounts")
    (harg : getArg args "user_id" = some uid) (hne : uid ≠ "")
    (hmiss : accounts.any (fun a => a.email = uid) = false) :
    (accounts ≠ [] →
      callTool accounts stored ops now gmailTool calendarTool name args =
        (.err ⟨"OAuth2 setup failed: " ++
          (OAuthError.accountNotConfigured uid).message, false⟩, [])) ∧
    (accounts = [] →
      callTool accounts stored ops now gmailTool calendarTool name args =
        (.err ⟨"OAuth2 setup failed: " ++ OAuthError.noAccounts.message,
          false⟩, [])) ∧
    ((callTool accounts stored ops now gmailTool calendarTool name
      args).2.all fun e => !e.providerNetwork) = true := by
  have hor :
      ¬ (name = "gmail_list_accounts" ∨ name = "calendar_list_accounts") := by
    rintro (h | h)
    exacts [h1 h, h2 h]
  cases accounts with
  | nil =>
      have hcall : callTool [] stored ops now gmailTool calendarTool name
          args =
          (.err ⟨"OAuth2 setup failed: " ++ OAuthError.noAccounts.message,
            false⟩, []) := by
        simp [callTool, hor, harg, hne, setupOAuth2, OAuthError.message]
      exact ⟨fun h => absurd rfl h, fun _ => hcall, by rw [hcall]; rfl⟩
  | cons a as =>
      have hcall : callTool (a :: as) stored ops now gmailTool calendarTool
          name args =
          (.err ⟨"OAuth2 setup failed: " ++
            (OAuthError.accountNotConfigured uid).message, false⟩, []) := by
        simp [callTool, hor, harg, hne, setupOAuth2, hmiss,
          OAuthError.message]
      exact ⟨fun _ => hcall, fun h => absurd h (List.cons_ne_nil a as),
        by rw [hcall]; rfl⟩

/-- C3 witness: the amended statement at a concrete configuration holding
only `b@y.com`, called with the unknown `a@x.com`. -/
theorem C3_amended_unknown_account_rejected_witness :
    callTool [⟨"b@y.com", "personal", ""⟩] (fun _ => none) trivialOps 0
      stubTool stubTool "gmail_query_emails" [("user_id", "a@x.com")] =
      (.err ⟨"OAuth2 setup failed: " ++
        (OAuthError.accountNotConfigured "a@x.com").message, false⟩, []) :=
  (C3_amended_unknown_account_rejected [⟨"b@y.com", "personal", ""⟩]
    (fun _ => none) trivialOps 0 stubTool stubTool "gmail_query_emails"
    [("user_id", "a@x.com")] "a@x.com" (by decide) (by decide) rfl
    (by decide) (by decide)).1 (by decide)

/-- Equality of `setupOAuth2` outcomes is decidable (for concrete
scenarios). -/
instance : DecidableEq (Except OAuthError Unit) :=
  fun a b =>
    match a, b with
    | .ok (), .ok () => isTrue rfl
    | .error e₁, .error e₂ =>
        if h : e₁ = e₂ then isTrue (by rw [h]) else
          isFalse (fun hc => h (by injection hc))
    | .ok _, .error _ => isFalse (fun hc => nomatch hc)
    | .error _, .ok _ => isFalse (fun hc => nomatch hc)

/-- C6 counterexample: two accounts, neither with stored credentials.  The
first call starts an interactive flow (binding port 4100).  A second call
for the other account, made while the first flow is still unresolved, again
binds port 4100 and completes without any error — it does not fail fast
with `AuthFlowBusy`. -/
theorem C6_counterexample :
    ((callTool [⟨"a@x.com", "personal", ""⟩, ⟨"b@y.com", "personal", ""⟩]
      (fun _ => none) trivialOps 0 stubTool stubTool "gmail_query_emails"
      [("user_id", "a@x.com")]).2.contains (.listen 4100)) = true ∧
    ((callTool [⟨"a@x.com", "personal", ""⟩, ⟨"b@y.com", "personal", ""⟩]
      (fun _ => none) trivialOps 0 stubTool stubTool "gmail_query_emails"
      [("user_id", "b@y.com")]).2.contains (.listen 4100)) = true ∧
    (callTool [⟨"a@x.com", "personal", ""⟩, ⟨"b@y.com", "personal", ""⟩]
      (fun _ => none) trivialOps 0 stubTool stubTool "gmail_query_emails"
      [("user_id", "b@y.com")]).1 = .ok ["stub"] ∧
    (setupOAuth2 [⟨"a@x.com", "personal", ""⟩, ⟨"b@y.com", "personal", ""⟩]
      (fun _ => none) trivialOps 0 "b@y.com").1 ≠
      .error .authFlowBusy := by
  decide

/-- C6 (amended): the code maintains no singleton discipline.  Every
interactive flow unconditionally spawns the URL and binds a fresh listener
on port 4100, and `setupOAuth2` can never fail with `AuthFlowBusy`, whatever
the pending state. -/
theorem C6_amended_no_singleton_guard (userId : String)
    (accounts : List Account) (stored : String → Option StoredCredentials)
    (ops : GAuthOps) (now : Int) :
    startAuthFlow userId =
      (.ok (), [.spawnOpen (authorizationUrl userId), .listen 4100]) ∧
    (setupOAuth2 accounts stored ops now userId).1 ≠
      .error .authFlowBusy := by
  refine ⟨rfl, ?_⟩
  unfold setupOAuth2 startAuthFlow
  repeat' split
  all_goals simp

/-- C7: any failure surfaced by `setupOAuth2` — account validation, a thrown
refresh/validation error, a thrown storage error — is returned to the
calling tool invocation as the structured `isError` payload, and the server
goes on settling every subsequent request of the stream by the same total
per-call function. -/
theorem C7_credential_failure_degrades_call_only (accounts : List Account)
    (stored : String → Option StoredCredentials) (ops : GAuthOps)
    (now : Int) (gmailTool calendarTool : ToolImpl) (name : String)
    (args : Args) (uid : String) (e : OAuthError)
    (h1 : name ≠ "gmail_list_accounts")
    (h2 : name ≠ "calendar_list_accounts")
    (harg : getArg args "user_id" = some uid) (hne : uid ≠ "")
    (hfail : (setupOAuth2 accounts stored ops now uid).1 = .error e) :
    (callTool accounts stored ops now gmailTool calendarTool name args).1 =
      .err ⟨"OAuth2 setup failed: " ++ e.message, false⟩ ∧
    ∀ reqs : List (String × Args),
      serveAll accounts stored ops now gmailTool calendarTool
        ((name, args) :: reqs) =
        (callTool accounts stored ops now gmailTool calendarTool name
          args).1 ::
          serveAll accounts stored ops now gmailTool calendarTool reqs := by
  constructor
  · have hor :
        ¬ (name = "gmail_list_accounts" ∨
           name = "calendar_list_accounts") := by
      rintro (h | h)
      exacts [h1 h, h2 h]
    rcases hp : setupOAuth2 accounts stored ops now uid with ⟨r, evs⟩
    have hr : r = .error e := by rw [hp] at hfail; exact hfail
    subst hr
    simp [callTool, hor, harg, hne, hp]
  · intro reqs
    rfl

/-- C7 witness: a concrete failing setup (empty accounts list) yields the
structured payload, and the next request in the stream is still served. -/
theorem C7_credential_failure_degrades_call_only_witness :
    (callTool [] (fun _ => none) trivialOps 0 stubTool stubTool
      "gmail_query_emails" [("user_id", "a@x.com")]).1 =
      .err ⟨"OAuth2 setup failed: " ++ OAuthError.noAccounts.message,
        false⟩ ∧
    serveAll [] (fun _ => none) trivialOps 0 stubTool stubTool
      [("gmail_query_emails", [("user_id", "a@x.com")]),
       ("gmail_list_accounts", [])] =
      (callTool [] (fun _ => none) trivialOps 0 stubTool stubTool
        "gmail_query_emails" [("user_id", "a@x.com")]).1 ::
        serveAll [] (fun _ => none) trivialOps 0 stubTool stubTool
          [("gmail_list_accounts", [])] :=
  ⟨(C7_credential_failure_degrades_call_only [] (fun _ => none) trivialOps 0
      stubTool stubTool "gmail_query_emails" [("user_id", "a@x.com")]
      "a@x.com" .noAccounts (by decide) (by decide) rfl (by decide) rfl).1,
   (C7_credential_failure_degrades_call_only [] (fun _ => none) trivialOps 0
      stubTool stubTool "gmail_query_emails" [("user_id", "a@x.com")]
      "a@x.com" .noAccounts (by decide) (by decide) rfl (by decide) rfl).2
      [("gmail_list_accounts", [])]⟩

end MCPGW

